import Mathlib

/-!
Verification development for the compuSUAVE_Professional::Integral<T> wrapper
(src/src/IntegralTest.cpp, which inlines Integral.hpp).  The embedding
instantiates the template parameter T at int, the 32-bit signed type used
throughout the test suite, on an LP64 platform where std::size_t is the
unsigned 64-bit type.  Machine integers are modelled as Int with explicit
wrapping where the width matters; the possibly non-terminating digit loop of
toRadix is modelled with explicit fuel and an Option result, where none means
the loop did not finish within the given fuel.
-/

/-- Lower bound of the 32-bit signed int range. -/
def INT32_MIN : Int := -2147483648

/-- Upper bound of the 32-bit signed int range. -/
def INT32_MAX : Int := 2147483647

/-- Reduction of an unbounded integer to the 32-bit two-complement
representative, the de facto native behaviour of int arithmetic. -/
def wrap32 (x : Int) : Int := (x + 2147483648) % 4294967296 - 2147483648

/-- Saturation to the int range; C++11 stream extraction stores the nearest
representable value when the parsed field overflows. -/
def clamp32 (x : Int) : Int :=
  if x < INT32_MIN then INT32_MIN else if INT32_MAX < x then INT32_MAX else x

/-- The value is representable as a 32-bit signed int. -/
abbrev inRange32 (x : Int) : Prop := INT32_MIN ≤ x ∧ x ≤ INT32_MAX

/-- Whitespace characters skipped by formatted stream extraction in the C
locale (std::isspace). -/
def cppIsSpace (c : Char) : Bool :=
  c = ' ' || c = '\t' || c = '\n' || c = '\x0b' || c = '\x0c' || c = '\x0d'

/-- Valid character for std::bitset construction: the digits zero and one. -/
def isBinDigitChar (c : Char) : Bool := c = '0' || c = '1'

/-- Valid digit for base-8 extraction. -/
def isOctDigitChar (c : Char) : Bool := 48 ≤ c.toNat && c.toNat ≤ 55

/-- Valid digit for base-10 extraction. -/
def isDecDigitChar (c : Char) : Bool := 48 ≤ c.toNat && c.toNat ≤ 57

/-- Valid digit for base-16 extraction, either letter case. -/
def isHexDigitChar (c : Char) : Bool :=
  isDecDigitChar c || (97 ≤ c.toNat && c.toNat ≤ 102) || (65 ≤ c.toNat && c.toNat ≤ 70)

/-- Numeric value of a digit character in any of the bases above. -/
def digitVal (c : Char) : Nat :=
  if isDecDigitChar c then c.toNat - 48
  else if 97 ≤ c.toNat && c.toNat ≤ 102 then c.toNat - 97 + 10
  else if 65 ≤ c.toNat && c.toNat ≤ 70 then c.toNat - 65 + 10
  else 0

/-- Accumulate a digit string left to right in the given base. -/
def digitsToNat (base : Nat) (cs : List Char) : Nat :=
  cs.foldl (fun acc c => base * acc + digitVal c) 0

/-- Binary branch of Integral(const std::string&): std::bitset with
std::numeric_limits<int>::digits = 31 positions validates every character
after the 0b prefix (all-or-nothing; std::invalid_argument is caught and
leaves the zero-initialised value) and initialises bits from the first
min(31, length) characters, most significant first; bits.to_ullong() is then
cast back to int, which is exact because 31 bits fit. -/
def parseBinary (rest : List Char) : Int :=
  if rest.all isBinDigitChar then (digitsToNat 2 (rest.take 31) : Int) else 0

/-- Hexadecimal branch: stream extraction with std::hex on the full string
consumes the 0x prefix and then the longest run of hex digits; a run of zero
digits stores zero. -/
def parseHexTail (rest : List Char) : Int :=
  clamp32 (digitsToNat 16 (rest.takeWhile isHexDigitChar) : Int)

/-- Octal branch: stream extraction with std::oct on the full string consumes
the longest run of octal digits, which includes the leading 0 that selected
this branch. -/
def parseOctal (cs : List Char) : Int :=
  clamp32 (digitsToNat 8 (cs.takeWhile isOctDigitChar) : Int)

/-- Decimal branch: default formatted extraction skips leading whitespace,
accepts one optional sign, then consumes the longest run of decimal digits;
if no digit is consumed the extraction fails and stores zero. -/
def parseDecimal (cs : List Char) : Int :=
  match cs.dropWhile cppIsSpace with
  | [] => 0
  | c :: rest =>
      if c = '-' then
        if rest.takeWhile isDecDigitChar = [] then 0
        else clamp32 (-(digitsToNat 10 (rest.takeWhile isDecDigitChar) : Int))
      else if c = '+' then
        if rest.takeWhile isDecDigitChar = [] then 0
        else clamp32 (digitsToNat 10 (rest.takeWhile isDecDigitChar) : Int)
      else
        if (c :: rest).takeWhile isDecDigitChar = [] then 0
        else clamp32 (digitsToNat 10 ((c :: rest).takeWhile isDecDigitChar) : Int)

/-- The value.find(pattern) == 0 test of the constructor: the first list is
the pattern, the second the string. -/
def beginsWith : List Char → List Char → Bool
  | [], _ => true
  | _ :: _, [] => false
  | p :: ps, c :: cs => p == c && beginsWith ps cs

/-- Integral(const std::string&): dispatch on the prefix of the string, in
the order written in the constructor: 0b or 0B selects the binary branch,
else lowercase 0x selects the hexadecimal branch, else a leading 0 selects
the octal branch, otherwise the decimal branch. -/
def parseIntegral (cs : List Char) : Int :=
  if beginsWith ['0', 'b'] cs || beginsWith ['0', 'B'] cs then parseBinary (cs.drop 2)
  else if beginsWith ['0', 'x'] cs then parseHexTail (cs.drop 2)
  else if beginsWith ['0'] cs then parseOctal cs
  else parseDecimal cs

/-- The wrapper type: one encapsulated scalar m_value of type T = int. -/
structure Integral where
  m_value : Int
deriving DecidableEq

/-- Constructor from a std::string object. -/
def Integral.ofString (s : String) : Integral := ⟨parseIntegral s.toList⟩

/-- Conversion operator to the underlying type T. -/
def Integral.toNumeric (x : Integral) : Int := x.m_value

/-- operator == : numeric comparison of the two encapsulated values. -/
def Integral.beq (a b : Integral) : Bool := a.m_value == b.m_value

/-- operator != : the negation of operator ==. -/
def Integral.bne (a b : Integral) : Bool := !(Integral.beq a b)

/-- operator < : numeric comparison of the two encapsulated values. -/
def Integral.blt (a b : Integral) : Bool := decide (a.m_value < b.m_value)

/-- operator > : defined in the source as the negation of operator <. -/
def Integral.bgt (a b : Integral) : Bool := !(Integral.blt a b)

/-- operator <= : disjunction of operator < and operator ==. -/
def Integral.ble (a b : Integral) : Bool := Integral.blt a b || Integral.beq a b

/-- operator >= : defined in the source as the negation of operator <=. -/
def Integral.bge (a b : Integral) : Bool := !(Integral.ble a b)

/-- operator + on the encapsulated int values. -/
def Integral.add (a b : Integral) : Integral := ⟨wrap32 (a.m_value + b.m_value)⟩

/-- operator - on the encapsulated int values. -/
def Integral.sub (a b : Integral) : Integral := ⟨wrap32 (a.m_value - b.m_value)⟩

/-- operator * on the encapsulated int values. -/
def Integral.mul (a b : Integral) : Integral := ⟨wrap32 (a.m_value * b.m_value)⟩

/-- operator / on the encapsulated int values; C++ int division truncates
toward zero, which is Int.tdiv. -/
def Integral.div (a b : Integral) : Integral := ⟨wrap32 (Int.tdiv a.m_value b.m_value)⟩

/-- operator % on the encapsulated int values; the C++ remainder takes the
sign of the dividend, which is Int.tmod. -/
def Integral.mod (a b : Integral) : Integral := ⟨wrap32 (Int.tmod a.m_value b.m_value)⟩

/-- Pre-increment: ++m_value, then return *this.  The pair is (returned
object, state of the operand after the call); the source returns a reference
to the operand itself, so the two components coincide. -/
def Integral.preInc (x : Integral) : Integral × Integral :=
  (⟨wrap32 (x.m_value + 1)⟩, ⟨wrap32 (x.m_value + 1)⟩)

/-- Post-increment: return a fresh object built from m_value++, snapshotting
the value before the mutation. -/
def Integral.postInc (x : Integral) : Integral × Integral :=
  (⟨x.m_value⟩, ⟨wrap32 (x.m_value + 1)⟩)

/-- Pre-decrement: --m_value, then return *this. -/
def Integral.preDec (x : Integral) : Integral × Integral :=
  (⟨wrap32 (x.m_value - 1)⟩, ⟨wrap32 (x.m_value - 1)⟩)

/-- Post-decrement: return a fresh object built from m_value--. -/
def Integral.postDec (x : Integral) : Integral × Integral :=
  (⟨x.m_value⟩, ⟨wrap32 (x.m_value - 1)⟩)

/-- min free function: (lhs < rhs) ? lhs : rhs, returning one of the two
operands by reference (no copy is made in the source). -/
def Integral.min (lhs rhs : Integral) : Integral :=
  if Integral.blt lhs rhs then lhs else rhs

/-- max free function: (lhs > rhs) ? lhs : rhs, with operator > derived as
the negation of operator <. -/
def Integral.max (lhs rhs : Integral) : Integral :=
  if Integral.bgt lhs rhs then lhs else rhs

/-- Decimal digit characters of a natural number, least significant first;
the first argument is fuel bounding the recursion depth. -/
def natToDecRev : Nat → Nat → List Char
  | 0, _ => []
  | fuel + 1, n => if n = 0 then [] else Char.ofNat (48 + n % 10) :: natToDecRev fuel (n / 10)

/-- Decimal numeral of a natural number, as produced by the iostreams
formatting of a non-negative int. -/
def natToDec (n : Nat) : String :=
  if n = 0 then "0" else String.mk (natToDecRev n n).reverse

/-- Decimal numeral of an int, as produced by std::to_string and by stream
insertion: a single leading minus sign for negative values. -/
def intToDec (i : Int) : String :=
  if i < 0 then "-" ++ natToDec i.natAbs else natToDec i.natAbs

/-- Digit character used by iostreams for bases 8 and 16: 0-9 then lowercase
letters. -/
def baseDigitChar (d : Nat) : Char :=
  if d < 10 then Char.ofNat (48 + d) else Char.ofNat (97 + d - 10)

/-- Digits of a natural number in the given base, least significant first,
with fuel bounding the recursion depth. -/
def natToBaseRev : Nat → Nat → Nat → List Char
  | 0, _, _ => []
  | fuel + 1, n, b => if n = 0 then [] else baseDigitChar (n % b) :: natToBaseRev fuel (n / b) b

/-- Numeral of a natural number in the given base, most significant first. -/
def natToBase (b n : Nat) : String :=
  if n = 0 then "0" else String.mk (natToBaseRev n n b).reverse

/-- Hexadecimal rendering of an int by iostreams: negative values are shown
as their congruent unsigned 32-bit value. -/
def hexRender (v : Int) : String :=
  if v < 0 then natToBase 16 (v + 4294967296).toNat else natToBase 16 v.toNat

/-- Octal rendering of an int by iostreams, with the same unsigned
congruence convention for negative values. -/
def octRender (v : Int) : String :=
  if v < 0 then natToBase 8 (v + 4294967296).toNat else natToBase 8 v.toNat

/-- Conversion of an int loop variable to the unsigned 64-bit value used by
the mixed int and std::size_t arithmetic inside the toRadix digit loop. -/
def toU64 (v : Int) : Nat := (v % 18446744073709551616).toNat

/-- One pushed stack entry of the toRadix digit loop: value % radix, where
the usual arithmetic conversions turn value into a std::size_t first. -/
def loopDigit (r : Nat) (v : Int) : Nat := toU64 v % r

/-- One update of the toRadix loop variable: value /= radix, computed in
std::size_t and narrowed back to int. -/
def loopNext (r : Nat) (v : Int) : Int := wrap32 ((toU64 v / r : Nat) : Int)

/-- The while loop of the toRadix digit branch: push value % radix and divide
until the value reaches zero; the result lists the pushed entries in push
order, and a result of none means the loop has not terminated within the
given fuel. -/
def radixStackO : Nat → Int → Nat → Option (List Nat)
  | 0, v, _ => if v = 0 then some [] else none
  | fuel + 1, v, r =>
      if v = 0 then some []
      else (radixStackO fuel (loopNext r v) r).map (fun t => loopDigit r v :: t)

/-- toRadix: radix zero or above sixteen falls back to the base-10 numeral;
sixteen and eight use the iostreams renderings; every other radix runs the
repeated-division stack loop, pops the stack into the stream buffer (each
entry formatted as a decimal int numeral) and reads the buffer back, an empty
buffer leaving the result string empty.  Reading the buffer back is the
identity here because the buffer never contains whitespace. -/
def Integral.toRadix (x : Integral) (radix : Nat) : Option String :=
  if radix = 0 ∨ 16 < radix then some (intToDec x.m_value)
  else if radix = 16 then some (hexRender x.m_value)
  else if radix = 8 then some (octRender x.m_value)
  else
    (radixStackO x.m_value.natAbs x.m_value radix).map
      (fun st => String.join (st.reverse.map (fun d => natToDec d)))

/-- Conversion operator to std::string: the decimal numeral. -/
def Integral.toText (x : Integral) : String := intToDec x.m_value

/-- hex convenience wrapper. -/
def Integral.hex (x : Integral) : Option String := x.toRadix 16

/-- dec convenience wrapper. -/
def Integral.dec (x : Integral) : Option String := x.toRadix 10

/-- oct convenience wrapper. -/
def Integral.oct (x : Integral) : Option String := x.toRadix 8

/-- bin convenience wrapper. -/
def Integral.bin (x : Integral) : Option String := x.toRadix 2

/-! Helper lemmas. -/

theorem wrap32_id (x : Int) (h1 : -2147483648 ≤ x) (h2 : x ≤ 2147483647) :
    wrap32 x = x := by
  unfold wrap32
  omega

theorem integral_eq (a b : Integral) (h : a.m_value = b.m_value) : a = b := by
  cases a
  cases b
  simp_all

/-- Claim C1: the derived comparison operators behave as written in the
source: != is the negation of ==, > is the negation of <, <= is the
disjunction of < and ==, >= is the negation of <=; semantically > holds
exactly when the right value is at most the left one, so it is also true at
equality, and >= holds exactly at strict numeric greater-than; in particular
a > a always holds. -/
theorem claim_C1_derived_comparisons (a b : Integral) :
    Integral.bne a b = !(Integral.beq a b) ∧
    Integral.bgt a b = !(Integral.blt a b) ∧
    Integral.ble a b = (Integral.blt a b || Integral.beq a b) ∧
    Integral.bge a b = !(Integral.ble a b) ∧
    Integral.bgt a b = decide (b.m_value ≤ a.m_value) ∧
    Integral.bge a b = decide (b.m_value < a.m_value) ∧
    Integral.bgt a a = true := by
  refine ⟨rfl, rfl, rfl, rfl, ?_, ?_, ?_⟩
  · simp only [Integral.bgt, Integral.blt]
    rcases lt_or_le a.m_value b.m_value with h | h
    · have h2 : ¬ b.m_value ≤ a.m_value := by omega
      simp [h, h2]
    · have h2 : ¬ a.m_value < b.m_value := by omega
      simp [h, h2]
  · simp only [Integral.bge, Integral.ble, Integral.blt, Integral.beq]
    rcases lt_trichotomy a.m_value b.m_value with h | h | h
    · have h1 : ¬ b.m_value < a.m_value := by omega
      have h2 : a.m_value ≠ b.m_value := by omega
      simp [h, h1, h2]
    · simp [h]
    · have h1 : ¬ a.m_value < b.m_value := by omega
      have h2 : a.m_value ≠ b.m_value := by omega
      simp [h, h1, h2]
  · simp [Integral.bgt, Integral.blt]

/-- Claim C4: a radix of zero, or any radix above sixteen, never fails and
falls back to the base-10 decimal rendering of the value, the same string
the textual conversion produces; in particular toRadix 0 and toRadix 17 both
equal toText. -/
theorem claim_C4_invalid_radix_fallback (v : Int) (r : Nat) (h : r = 0 ∨ 16 < r) :
    Integral.toRadix ⟨v⟩ r = some (Integral.toText ⟨v⟩) ∧
    Integral.toRadix ⟨v⟩ 0 = some (Integral.toText ⟨v⟩) ∧
    Integral.toRadix ⟨v⟩ 17 = some (Integral.toText ⟨v⟩) := by
  refine ⟨?_, ?_, ?_⟩
  · unfold Integral.toRadix Integral.toText
    rw [if_pos h]
  · unfold Integral.toRadix Integral.toText
    rw [if_pos (Or.inl rfl)]
  · unfold Integral.toRadix Integral.toText
    rw [if_pos (Or.inr (by omega))]

/-- Witness for claim C4 at value 12 and radix 17. -/
theorem claim_C4_invalid_radix_fallback_witness :
    Integral.toRadix ⟨12⟩ 17 = some (Integral.toText ⟨12⟩) :=
  (claim_C4_invalid_radix_fallback 12 17 (Or.inr (by omega))).1

/-- Claim C6: min returns the right-hand operand exactly when lhs < rhs is
false (hence on ties), otherwise the left-hand operand; max returns the
left-hand operand exactly when the derived lhs > rhs holds (hence on ties),
otherwise the right-hand operand; both always return one of their two
inputs, and min 12 24 is 12 while max 12 24 is 24. -/
theorem claim_C6_min_max_selection (a b : Integral) :
    (Integral.blt a b = false → Integral.min a b = b) ∧
    (Integral.blt a b = true → Integral.min a b = a) ∧
    (Integral.beq a b = true → Integral.min a b = b) ∧
    (Integral.bgt a b = true → Integral.max a b = a) ∧
    (Integral.bgt a b = false → Integral.max a b = b) ∧
    (Integral.beq a b = true → Integral.max a b = a) ∧
    (Integral.min a b = a ∨ Integral.min a b = b) ∧
    (Integral.max a b = a ∨ Integral.max a b = b) ∧
    (Integral.min ⟨12⟩ ⟨24⟩).toNumeric = 12 ∧
    (Integral.max ⟨12⟩ ⟨24⟩).toNumeric = 24 := by
  refine ⟨?_, ?_, ?_, ?_, ?_, ?_, ?_, ?_, by decide, by decide⟩
  · intro h
    simp [Integral.min, h]
  · intro h
    simp [Integral.min, h]
  · intro h
    have hab : a = b := integral_eq a b (by simpa [Integral.beq] using h)
    subst hab
    simp [Integral.min]
  · intro h
    simp [Integral.max, h]
  · intro h
    simp [Integral.max, h]
  · intro h
    have hab : a = b := integral_eq a b (by simpa [Integral.beq] using h)
    subst hab
    simp [Integral.max]
  · unfold Integral.min
    split
    · exact Or.inl rfl
    · exact Or.inr rfl
  · unfold Integral.max
    split
    · exact Or.inl rfl
    · exact Or.inr rfl

/-- Witness for claim C6 at the operands 12 and 24. -/
theorem claim_C6_min_max_selection_witness :
    Integral.min ⟨12⟩ ⟨24⟩ = ⟨12⟩ ∧ Integral.max ⟨12⟩ ⟨24⟩ = ⟨24⟩ :=
  ⟨(claim_C6_min_max_selection ⟨12⟩ ⟨24⟩).2.1 (by decide),
   (claim_C6_min_max_selection ⟨12⟩ ⟨24⟩).2.2.2.2.1 (by decide)⟩

/-- Claim C7: the pre-increment and pre-decrement return the mutated object
itself (returned value and post-state coincide), the post-increment and
post-decrement return a fresh snapshot of the value before the mutation
while the operand still advances to the same post-state, and within the
representable range the mutation is exactly plus one or minus one. -/
theorem claim_C7_increment_decrement (x : Integral) :
    (Integral.preInc x).1 = (Integral.preInc x).2 ∧
    (Integral.postInc x).1 = x ∧
    (Integral.postInc x).2 = (Integral.preInc x).2 ∧
    (Integral.preDec x).1 = (Integral.preDec x).2 ∧
    (Integral.postDec x).1 = x ∧
    (Integral.postDec x).2 = (Integral.preDec x).2 ∧
    (-2147483648 ≤ x.m_value → x.m_value < 2147483647 →
      (Integral.preInc x).2.m_value = x.m_value + 1) ∧
    (-2147483648 < x.m_value → x.m_value ≤ 2147483647 →
      (Integral.preDec x).2.m_value = x.m_value - 1) := by
  refine ⟨rfl, rfl, rfl, rfl, rfl, rfl, ?_, ?_⟩
  · intro h1 h2
    exact wrap32_id _ (by omega) (by omega)
  · intro h1 h2
    exact wrap32_id _ (by omega) (by omega)

/-- Witness for claim C7 at the value 1. -/
theorem claim_C7_increment_decrement_witness :
    (Integral.preInc ⟨1⟩).2.m_value = 2 ∧ (Integral.preDec ⟨1⟩).2.m_value = 0 := by
  constructor
  · have h := (claim_C7_increment_decrement ⟨1⟩).2.2.2.2.2.2.1 (by decide) (by decide)
    rw [h]
    decide
  · have h := (claim_C7_increment_decrement ⟨1⟩).2.2.2.2.2.2.2 (by decide) (by decide)
    rw [h]
    decide

/-- Claim C8: whenever the mathematical result of the native operation is
representable in the 32-bit int range, the wrapped arithmetic agrees with
the underlying fixed-width arithmetic, for +, -, *, and for / and % under
the additional hypothesis that the divisor is nonzero (C++ int division
truncates toward zero, Int.tdiv, with remainder Int.tmod). -/
theorem claim_C8_arithmetic_agreement (a b : Integral) :
    (inRange32 (a.m_value + b.m_value) →
      (Integral.add a b).toNumeric = a.toNumeric + b.toNumeric) ∧
    (inRange32 (a.m_value - b.m_value) →
      (Integral.sub a b).toNumeric = a.toNumeric - b.toNumeric) ∧
    (inRange32 (a.m_value * b.m_value) →
      (Integral.mul a b).toNumeric = a.toNumeric * b.toNumeric) ∧
    (b.m_value ≠ 0 → inRange32 (Int.tdiv a.m_value b.m_value) →
      (Integral.div a b).toNumeric = Int.tdiv a.toNumeric b.toNumeric) ∧
    (b.m_value ≠ 0 → inRange32 (Int.tmod a.m_value b.m_value) →
      (Integral.mod a b).toNumeric = Int.tmod a.toNumeric b.toNumeric) := by
  refine ⟨?_, ?_, ?_, ?_, ?_⟩
  · rintro ⟨h1, h2⟩
    exact wrap32_id _ h1 h2
  · rintro ⟨h1, h2⟩
    exact wrap32_id _ h1 h2
  · rintro ⟨h1, h2⟩
    exact wrap32_id _ h1 h2
  · rintro hb ⟨h1, h2⟩
    exact wrap32_id _ h1 h2
  · rintro hb ⟨h1, h2⟩
    exact wrap32_id _ h1 h2

/-- Witness for claim C8 at small concrete operands. -/
theorem claim_C8_arithmetic_agreement_witness :
    (Integral.add ⟨6⟩ ⟨3⟩).toNumeric = 9 ∧
    (Integral.sub ⟨6⟩ ⟨3⟩).toNumeric = 3 ∧
    (Integral.mul ⟨6⟩ ⟨3⟩).toNumeric = 18 ∧
    (Integral.div ⟨7⟩ ⟨2⟩).toNumeric = 3 ∧
    (Integral.mod ⟨7⟩ ⟨2⟩).toNumeric = 1 := by
  refine ⟨?_, ?_, ?_, ?_, ?_⟩
  · have h := (claim_C8_arithmetic_agreement ⟨6⟩ ⟨3⟩).1 (by decide)
    rw [h]
    decide
  · have h := (claim_C8_arithmetic_agreement ⟨6⟩ ⟨3⟩).2.1 (by decide)
    rw [h]
    decide
  · have h := (claim_C8_arithmetic_agreement ⟨6⟩ ⟨3⟩).2.2.1 (by decide)
    rw [h]
    decide
  · have h := (claim_C8_arithmetic_agreement ⟨7⟩ ⟨2⟩).2.2.2.1 (by decide) (by decide)
    rw [h]
    decide
  · have h := (claim_C8_arithmetic_agreement ⟨7⟩ ⟨2⟩).2.2.2.2 (by decide) (by decide)
    rw [h]
    decide

/-- Claim C2: string construction dispatches deterministically on the
prefix, in order: 0b or 0B selects all-or-nothing binary parsing (any
invalid character anywhere yields 0), else lowercase 0x selects hexadecimal
prefix parsing, else a leading 0 selects octal prefix parsing, otherwise
decimal prefix parsing; concretely 137 parses to 137, 017 to 15, 0x64 to
100, 0b1111 and 0B1111 to 15, 7SEVEN to 7 (partial parse), SEVEN to 0, and
0x64ZZ to 100 (partial hexadecimal parse). -/
theorem claim_C2_string_parse_dispatch :
    (∀ rest : List Char, rest.all isBinDigitChar = false →
      parseIntegral ('0' :: 'b' :: rest) = 0 ∧ parseIntegral ('0' :: 'B' :: rest) = 0) ∧
    (Integral.ofString ("137")).toNumeric = 137 ∧
    (Integral.ofString ("017")).toNumeric = 15 ∧
    (Integral.ofString ("0x64")).toNumeric = 100 ∧
    (Integral.ofString ("0b1111")).toNumeric = 15 ∧
    (Integral.ofString ("0B1111")).toNumeric = 15 ∧
    (Integral.ofString ("7SEVEN")).toNumeric = 7 ∧
    (Integral.ofString ("SEVEN")).toNumeric = 0 ∧
    (Integral.ofString ("0x64ZZ")).toNumeric = 100 := by
  refine ⟨?_, by decide, by decide, by decide, by decide, by decide, by decide,
    by decide, by decide⟩
  intro rest h
  constructor
  · simp [parseIntegral, beginsWith, parseBinary, h]
  · simp [parseIntegral, beginsWith, parseBinary, h]

/-- Witness for the universal part of claim C2: the malformed binary string
0b2 parses to 0. -/
theorem claim_C2_string_parse_dispatch_witness :
    parseIntegral ['0', 'b', '2'] = 0 :=
  (claim_C2_string_parse_dispatch.1 ['2'] (by decide)).1

/-- Claim C3 counterexample: the string -5 dispatches to the decimal branch
and its first character is not a digit of the selected base 10, yet the
stream extraction accepts the sign, so the constructed value is -5 and not
0, refuting the claim that such strings always yield value 0. -/
theorem claim_C3_counterexample :
    (Integral.ofString ("-5")).toNumeric = -5 ∧
    ¬ (Integral.ofString ("-5")).toNumeric = 0 ∧
    isDecDigitChar ('-') = false := by
  decide

/-- Claim C3 amended: parsing is total (never raises) and yields 0 whenever
the character at the parse position of the selected base is not a digit of
that base, except that on the decimal branch stream extraction first skips
whitespace and accepts one optional sign: a binary string whose first
character after the prefix is not 0 or 1 yields 0, a hexadecimal string
whose first character after 0x is not a hex digit yields 0, a string with a
leading 0 whose next character is not an octal digit (and does not select
another branch) yields 0, and a decimal string whose first character is not
a digit, not whitespace, and not a sign yields 0. -/
theorem claim_C3_amended (c : Char) (rest : List Char) :
    (isBinDigitChar c = false → parseIntegral ('0' :: 'b' :: c :: rest) = 0 ∧
      parseIntegral ('0' :: 'B' :: c :: rest) = 0) ∧
    (isHexDigitChar c = false → parseIntegral ('0' :: 'x' :: c :: rest) = 0) ∧
    (c ≠ 'b' → c ≠ 'B' → c ≠ 'x' → isOctDigitChar c = false →
      parseIntegral ('0' :: c :: rest) = 0) ∧
    (c ≠ '0' → isDecDigitChar c = false → cppIsSpace c = false → c ≠ '+' → c ≠ '-' →
      parseIntegral (c :: rest) = 0) := by
  refine ⟨?_, ?_, ?_, ?_⟩
  · intro h
    constructor
    · simp [parseIntegral, beginsWith, parseBinary, h]
    · simp [parseIntegral, beginsWith, parseBinary, h]
  · intro h
    simp [parseIntegral, beginsWith, parseHexTail, h, digitsToNat, clamp32,
      INT32_MIN, INT32_MAX]
  · intro hb hB hx h
    have hb2 : ('b' == c) = false := beq_eq_false_iff_ne.mpr hb.symm
    have hB2 : ('B' == c) = false := beq_eq_false_iff_ne.mpr hB.symm
    have hx2 : ('x' == c) = false := beq_eq_false_iff_ne.mpr hx.symm
    have ht : List.takeWhile isOctDigitChar ('0' :: c :: rest) = ['0'] := by
      rw [List.takeWhile_cons, if_pos (by decide), List.takeWhile_cons,
        if_neg (by simp [h])]
    simp [parseIntegral, beginsWith, hb2, hB2, hx2, parseOctal, ht, digitsToNat,
      digitVal, clamp32, INT32_MIN, INT32_MAX]
  · intro h0 hd hs hp hm
    have h02 : ('0' == c) = false := beq_eq_false_iff_ne.mpr h0.symm
    have hdw : (c :: rest).dropWhile cppIsSpace = c :: rest := by
      simp [List.dropWhile_cons, hs]
    simp only [parseIntegral, beginsWith, h02, Bool.false_and, Bool.and_false,
      Bool.or_self, if_false, Bool.false_eq_true, ite_false]
    unfold parseDecimal
    rw [hdw]
    simp [hm, hp, List.takeWhile_cons, hd]

/-- Witness for claim C3 amended at concrete characters. -/
theorem claim_C3_amended_witness :
    parseIntegral ['0', 'x', 'Z'] = 0 ∧ parseIntegral ['Z'] = 0 := by
  constructor
  · exact (claim_C3_amended 'Z' []).2.1 (by decide)
  · exact (claim_C3_amended 'Z' []).2.2.2 (by decide) (by decide) (by decide)
      (by decide) (by decide)
theorem toU64_ofNat (n : Nat) (h : n ≤ 2147483647) : toU64 (n : Int) = n := by
  unfold toU64
  omega

theorem loopDigit_ofNat (r n : Nat) (h : n ≤ 2147483647) :
    loopDigit r (n : Int) = n % r := by
  unfold loopDigit
  rw [toU64_ofNat n h]

theorem loopNext_ofNat (r n : Nat) (h : n ≤ 2147483647) :
    loopNext r (n : Int) = ((n / r : Nat) : Int) := by
  unfold loopNext
  rw [toU64_ofNat n h]
  have hle := Nat.div_le_self n r
  have hnn : (0 : Int) ≤ ((n / r : Nat) : Int) := Int.natCast_nonneg _
  exact wrap32_id _ (by omega) (by omega)

theorem radixStackO_ofNat (r : Nat) (hr : 2 ≤ r) :
    ∀ n fuel : Nat, n ≤ 2147483647 → n ≤ fuel →
      radixStackO fuel (n : Int) r = some (Nat.digits r n) := by
  intro n
  induction n using Nat.strong_induction_on with
  | _ n ih =>
    intro fuel hmax hfuel
    rcases Nat.eq_zero_or_pos n with h0 | h0
    · subst h0
      cases fuel with
      | zero => simp [radixStackO]
      | succ f => simp [radixStackO]
    · have hne : (n : Int) ≠ 0 := by omega
      obtain ⟨f, rfl⟩ : ∃ f, fuel = f + 1 := ⟨fuel - 1, by omega⟩
      have hdiv : n / r < n := Nat.div_lt_self h0 (by omega)
      have hdivle := Nat.div_le_self n r
      have hrec := ih (n / r) hdiv f (by omega) (by omega)
      simp only [radixStackO]
      rw [if_neg hne]
      rw [loopNext_ofNat r n hmax, loopDigit_ofNat r n hmax, hrec]
      rw [Nat.digits_def' (by omega : 1 < r) h0]
      rfl

theorem loopNext_two_neg (v : Int) (h1 : -2147483648 ≤ v) (h2 : v < 0) :
    loopNext 2 v = v / 2 := by
  unfold loopNext toU64 wrap32
  omega

theorem radixStackO_neg_two_none (fuel : Nat) :
    ∀ v : Int, -2147483648 ≤ v → v < 0 → radixStackO fuel v 2 = none := by
  induction fuel with
  | zero =>
    intro v h1 h2
    simp only [radixStackO]
    rw [if_neg (by omega : ¬ v = 0)]
  | succ f ih =>
    intro v h1 h2
    simp only [radixStackO]
    rw [if_neg (by omega : ¬ v = 0)]
    rw [loopNext_two_neg v h1 h2]
    rw [ih (v / 2) (by omega) (by omega)]
    rfl

/-- Claim C5: for a radix between 2 and 15 other than 8, toRadix is the
repeated-division algorithm: the remainders pushed while dividing down to
zero are exactly the base-r digits least significant first, and popping the
stack assembles the numeral most significant digit first; a value of
exactly zero yields the empty string on this path, and 12 renders as 30 in
base 4 and as 1100 in binary.  The quantified part covers the non-negative
representable values, on which the mixed int and std::size_t arithmetic of
the loop coincides with plain arithmetic. -/
theorem claim_C5_repeated_division (n r : Nat) (hmax : n ≤ 2147483647)
    (h2 : 2 ≤ r) (h15 : r ≤ 15) (h8 : r ≠ 8) :
    Integral.toRadix ⟨(n : Int)⟩ r =
      some (String.join (((Nat.digits r n).reverse).map natToDec)) ∧
    Integral.toRadix ⟨0⟩ r = some ("") ∧
    Integral.toRadix ⟨12⟩ 4 = some ("30") ∧
    Integral.bin ⟨12⟩ = some ("1100") := by
  refine ⟨?_, ?_, by decide, by decide⟩
  · unfold Integral.toRadix
    rw [if_neg (by omega), if_neg (by omega), if_neg h8]
    show (radixStackO ((n : Int)).natAbs (n : Int) r).map _ = _
    rw [Int.natAbs_ofNat]
    rw [radixStackO_ofNat r h2 n n hmax (le_refl n)]
    rfl
  · unfold Integral.toRadix
    rw [if_neg (by omega), if_neg (by omega), if_neg h8]
    show (radixStackO (0 : Int).natAbs 0 r).map _ = _
    have hz : radixStackO (0 : Int).natAbs 0 r = some [] := by
      simp [radixStackO]
    rw [hz]
    rfl

/-- Witness for claim C5 at value 12 and radix 4. -/
theorem claim_C5_repeated_division_witness :
    Integral.toRadix ⟨12⟩ 4 = some ("30") :=
  (claim_C5_repeated_division 12 4 (by decide) (by decide) (by decide)
    (by decide)).2.2.1

/-- Claim C9: for radices 11 to 15 and non-negative representable values,
each pushed digit is rendered through the decimal int formatting of the
stream buffer, so digits of numeric value ten or more appear as their
two-character decimal numerals and never as letter digits; in particular 13
in base 14 renders as the string 13, not as d. -/
theorem claim_C9_multichar_digits (n r : Nat) (hmax : n ≤ 2147483647)
    (h11 : 11 ≤ r) (h15 : r ≤ 15) :
    Integral.toRadix ⟨(n : Int)⟩ r =
      some (String.join (((Nat.digits r n).reverse).map natToDec)) ∧
    (∀ d : Nat, 10 ≤ d → d < r → (natToDec d).length = 2) ∧
    Integral.toRadix ⟨13⟩ 14 = some ("13") ∧
    ¬ Integral.toRadix ⟨13⟩ 14 = some ("d") := by
  refine ⟨?_, ?_, by decide, by decide⟩
  · unfold Integral.toRadix
    rw [if_neg (by omega), if_neg (by omega), if_neg (by omega)]
    show (radixStackO ((n : Int)).natAbs (n : Int) r).map _ = _
    rw [Int.natAbs_ofNat]
    rw [radixStackO_ofNat r (by omega) n n hmax (le_refl n)]
    rfl
  · intro d h10 hd
    have hd14 : d ≤ 14 := by omega
    interval_cases d <;> decide

/-- Witness for claim C9 at value 13 and radix 14. -/
theorem claim_C9_multichar_digits_witness :
    Integral.toRadix ⟨13⟩ 14 = some ("13") :=
  (claim_C9_multichar_digits 13 14 (by decide) (by decide) (by decide)).2.2.1

/-- Claim C10 counterexample: at the value -5 and radix 2 the loop does not
push the truncated-division remainders -1, 0, -1 and does not produce the
string -10-1: the usual arithmetic conversions turn the int loop value into
an unsigned std::size_t, the first pushed entry is the non-negative
remainder 1 (while truncated division would give -1), the updated value -1
is a nonzero fixed point of the loop, and the digit loop never terminates,
so no string at all is produced. -/
theorem claim_C10_counterexample :
    ¬ Integral.toRadix ⟨-5⟩ 2 = some ("-10-1") ∧
    Integral.toRadix ⟨-5⟩ 2 = none ∧
    loopDigit 2 (-5) = 1 ∧
    Int.tmod (-5) 2 = -1 ∧
    loopNext 2 (-1) = -1 := by
  decide

/-- Claim C10 amended: for every negative representable value the loop
operands are converted to unsigned 64-bit std::size_t, so the pushed entry
is the non-negative Euclidean remainder v mod 2 rather than the negative
truncated remainder; at radix 2 the narrowed update is floor division by
two, which keeps the loop value negative forever, so the while condition
never becomes false, the stack phase diverges for every amount of fuel, and
toRadix yields no string at all. -/
theorem claim_C10_unsigned_loop_divergence (fuel : Nat) (v : Int)
    (h1 : -2147483648 ≤ v) (h2 : v < 0) :
    radixStackO fuel v 2 = none ∧
    Integral.toRadix ⟨v⟩ 2 = none ∧
    ((loopDigit 2 v : Nat) : Int) = v % 2 ∧
    loopNext 2 v = v / 2 ∧
    loopNext 2 v < 0 := by
  refine ⟨radixStackO_neg_two_none fuel v h1 h2, ?_, ?_, loopNext_two_neg v h1 h2, ?_⟩
  · unfold Integral.toRadix
    rw [if_neg (by omega), if_neg (by omega), if_neg (by omega)]
    show (radixStackO v.natAbs v 2).map _ = none
    rw [radixStackO_neg_two_none v.natAbs v h1 h2]
    rfl
  · unfold loopDigit toU64
    omega
  · rw [loopNext_two_neg v h1 h2]
    omega

/-- Witness for claim C10 amended at fuel 3 and value -7. -/
theorem claim_C10_unsigned_loop_divergence_witness :
    radixStackO 3 (-7) 2 = none ∧ Integral.toRadix ⟨-7⟩ 2 = none :=
  ⟨(claim_C10_unsigned_loop_divergence 3 (-7) (by decide) (by decide)).1,
   (claim_C10_unsigned_loop_divergence 3 (-7) (by decide) (by decide)).2.1⟩
